import Mathlib

/-!
Verification development for the speechcoach core (src/speechcoach).

Shallow embedding of:
* src/speechcoach/analysis.py   — scoring functions
* src/speechcoach/utils_text.py — text normalization and pedagogic WER
* src/speechcoach/audio.py      — adaptive-silence recorder (RMS endpointing)
* src/speechcoach/game.py       — turn sequencer and session worker loop

Numeric values are modelled with ℚ (all constants of the code are decimal
literals, and no claim depends on floating-point rounding).  External
collaborators (microphone stream, TTS, ASR, persistence, UI dispatch) are
modelled as oracle streams supplied to the interpreter; repository-owned
logic is translated statement by statement from the Python source.
-/

set_option maxRecDepth 8000

namespace SpeechCoach

/-! ### analysis.py -/

/-- analysis.py, clamp: max(a, min(b, x)). -/
def clamp (x a b : ℚ) : ℚ := max a (min b x)

/-- analysis.py, final_score_v71. -/
def final_score_v71 (wer_value acoustic : ℚ) : ℚ :=
  let w := clamp wer_value 0 1
  let acoustic01 := clamp ((acoustic + 1) / 2) 0 1
  35/100 * (1 - w) + 65/100 * acoustic01

/-- analysis.py, phoneme_confidence_score. -/
def phoneme_confidence_score (target_sim contrast_sim : ℚ) : ℚ :=
  target_sim - contrast_sim

/-! ### utils_text.py -/

/-- utils_text.py, normalize_text_fr: lower, strip, punctuation→space,
whitespace collapse.  `String.toLower` lowers ASCII letters; the claims
exercise only ASCII text. -/
def normalize_text_fr (s : String) : String :=
  if s = "" then ""
  else
    let s := s.toLower.trim
    let s := s.replace "’" "'"
    let s := s.replace "œ" "oe"
    let s := s.replace "æ" "ae"
    let s := s.replace "-" " "
    let s := s.replace "," " "
    let s := s.replace ";" " "
    let s := s.replace ":" " "
    let s := s.replace "!" " "
    let s := s.replace "?" " "
    let s := s.replace "." " "
    let s := s.replace "…" " "
    String.intercalate " " ((s.split Char.isWhitespace).filter (· ≠ ""))

/-- utils_text.py, pedagogic_wer, in the configuration where the optional
external jiwer library is unavailable (the module-level fallback): WER is
binary 0/1 on normalized text, 0 when both normalizations are empty. -/
def pedagogic_wer (expected recognized : String) : ℚ :=
  let exp := normalize_text_fr expected
  let rec_ := normalize_text_fr recognized
  if exp = "" ∧ rec_ = "" then 0
  else if exp ≠ rec_ then 1 else 0

/-- A word-level timestamp from the transcriber (asr collaborator). -/
structure Word where
  word : String
  startSec : ℚ
  endSec : ℚ
  deriving DecidableEq, Repr

/-- Python substring test a in b (the empty string is in every string). -/
def pyIn (a b : String) : Bool :=
  a = "" || b.splitOn a ≠ [b]

/-- analysis.py, find_focus_window. -/
def find_focus_window (words : List Word) (target_word : String) : ℚ × ℚ :=
  let tgt := normalize_text_fr target_word
  match words with
  | [] => (0, 12/10)
  | w0 :: rest =>
    if tgt = "" then
      let s := w0.startSec
      let e := ((w0 :: rest).getLast (by simp)).endSec
      (max 0 s, e + 2/10)
    else
      match (w0 :: rest).find? (fun w =>
          let ww := normalize_text_fr w.word
          ww = tgt || pyIn tgt ww || pyIn ww tgt) with
      | some w => (max 0 (w.startSec - 12/100), w.endSec + 18/100)
      | none =>
        let mid := (w0 :: rest).getD ((w0 :: rest).length / 2) w0
        (max 0 (mid.startSec - 12/100), mid.endSec + 18/100)

/-! ### Python str.replace

`str.replace(pat, rep)` scans left to right and replaces non-overlapping
occurrences.  Modelled on character lists with a fuel argument equal to the
list length (sufficient for every non-empty pattern, and every call site
uses the non-empty pattern ".wav"). -/

/-- Left-to-right non-overlapping replacement on character lists. -/
def listReplaceF (pat rep : List Char) : Nat → List Char → List Char
  | 0, l => l
  | _ + 1, [] => []
  | f + 1, x :: xs =>
    if pat.isPrefixOf (x :: xs) ∧ pat ≠ [] then
      rep ++ listReplaceF pat rep f ((x :: xs).drop pat.length)
    else
      x :: listReplaceF pat rep f xs

/-- Python s.replace(pat, rep) for non-empty pat. -/
def pyReplace (s pat rep : String) : String :=
  String.mk (listReplaceF pat.data rep.data s.data.length s.data)

/-! ### audio.py — AudioEngine.record_until_silence_rms

The duration parameters of the Python function are converted once into block
counts (max_blocks, silence_need, min_total, min_speech, calib) by integer
division by the 30 ms block duration; the model takes those block counts
directly.  The microphone stream is an oracle giving the RMS of each block
read (calibration blocks first, capture blocks after), and the stop event is
an oracle consulted at the top of each capture iteration, matching the
once-per-block cancellation check of the code. -/

structure RecParams where
  maxBlocks : Nat
  silenceNeed : Nat
  minTotal : Nat
  minSpeech : Nat
  calib : Nat
  baseThreshold : ℚ
  thresholdMult : ℚ
  bs : Nat
  sr : ℚ
  deriving DecidableEq, Repr

/-- Mutable loop variables of the capture phase (started, silent, speech,
total block counters, and the number of blocks appended to frames). -/
structure CapSt where
  started : Bool
  silent : Nat
  speech : Nat
  total : Nat
  frames : Nat
  deriving DecidableEq, Repr

/-- numpy median of a rational list: sort, take the middle element, or the
mean of the two middle elements for even length. -/
def npMedian (l : List ℚ) : ℚ :=
  let s := l.mergeSort (fun a b => decide (a ≤ b))
  let n := s.length
  if n = 0 then 0
  else if n % 2 = 1 then s.getD (n / 2) 0
  else (s.getD (n / 2 - 1) 0 + s.getD (n / 2) 0) / 2

/-- Capture loop of record_until_silence_rms (audio.py lines 139-157).
capRms j is the RMS of the j-th capture block; stop j is the stop_event
value checked at the top of the iteration that has read j blocks so far.
Fuel starts at maxBlocks (the range of the for loop). -/
def captureLoop (p : RecParams) (capRms : Nat → ℚ) (stop : Nat → Bool)
    (thr : ℚ) : Nat → CapSt → CapSt
  | 0, s => s
  | fuel + 1, s =>
    if stop s.total then s
    else
      let r := capRms s.total
      if r > thr then
        captureLoop p capRms stop thr fuel
          { started := true, silent := 0, speech := s.speech + 1,
            total := s.total + 1, frames := s.frames + 1 }
      else if s.started then
        let s2 : CapSt :=
          { s with silent := s.silent + 1, total := s.total + 1,
                   frames := s.frames + 1 }
        if p.minSpeech ≤ s2.speech ∧ p.minTotal ≤ s2.total ∧ p.silenceNeed ≤ s2.silent
        then s2
        else captureLoop p capRms stop thr fuel s2
      else
        captureLoop p capRms stop thr fuel { s with total := s.total + 1 }

/-- Calibration: median RMS of the first calib blocks, then
threshold = max(base_threshold, noise_median * threshold_mult). -/
def thrOf (p : RecParams) (blocks : Nat → ℚ) : ℚ :=
  let noise := (List.range p.calib).map blocks
  let noiseMed := if noise = [] then 0 else npMedian noise
  max p.baseThreshold (noiseMed * p.thresholdMult)

structure RecResult where
  duration : ℚ
  threshold : ℚ
  frames : Nat
  capReads : Nat
  deriving DecidableEq, Repr

/-- record_until_silence_rms on the main path (sounddevice and soundfile
present, an input device selected): calibration, capture loop, then the
concatenated buffer — a single near-silent sample when no block was
appended — written out; returns duration = samples / sample_rate and the
threshold.  Total reads from the stream are calib + capReads. -/
def record_until_silence_rms (p : RecParams) (blocks : Nat → ℚ)
    (stop : Nat → Bool) : RecResult :=
  let thr := thrOf p blocks
  let cap := captureLoop p (fun j => blocks (p.calib + j)) stop thr
    p.maxBlocks ⟨false, 0, 0, 0, 0⟩
  let samples : Nat := if cap.frames = 0 then 1 else cap.frames * p.bs
  { duration := (samples : ℚ) / p.sr, threshold := thr,
    frames := cap.frames, capReads := cap.total }

/-! ### game.py — data model and turn sequencer -/

/-- A sentence of a story (stories collaborator). -/
structure Sentence where
  text : String
  target_word : String
  phoneme_target : String
  phoneme_contrast : String
  deriving DecidableEq, Repr

structure Story where
  title : String
  story_id : Nat
  goal : String
  sentences : List Sentence
  deriving DecidableEq, Repr

/-- A ratio-based session plan (session_manager.py SessionPlan fields read
by the game controller). -/
structure Plan where
  rounds : Nat
  warmup_ratio : ℚ
  cooldown_ratio : ℚ
  repeat_on_fail : Bool
  max_repeats_per_sentence : Nat
  deriving DecidableEq, Repr

/-- Python int() on a rational: truncation toward zero. -/
def truncQ (q : ℚ) : ℤ := Int.tdiv q.num q.den

/-- game.py lines 167-180: warm-up and cool-down counts.
warm_n = max(1, int(rounds * warmup_ratio)), likewise cool_n; if
warm_n + cool_n >= rounds both are clamped to max(1, rounds // 3). -/
def warmCoolCounts (rounds : Nat) (wr cr : ℚ) : Nat × Nat :=
  let warmN := (max 1 (truncQ ((rounds : ℚ) * wr))).toNat
  let coolN := (max 1 (truncQ ((rounds : ℚ) * cr))).toNat
  if rounds ≤ warmN + coolN then
    (max 1 (rounds / 3), max 1 (rounds / 3))
  else
    (warmN, coolN)

/-- The sentence indices 0..n-1 sorted ascending by text length
(difficulty proxy), as in idxs_sorted (game.py line 161). -/
def sortedByLen (texts : List String) : List Nat :=
  (List.range texts.length).mergeSort
    (fun a b => decide ((texts.getD a "").length ≤ (texts.getD b "").length))

/-- game.py lines 191-194: up to 3 re-rolls while the candidate equals the
previous sentence.  rng c is the candidate delivered by the c-th call of
random.choice(idxs), reduced mod n to stay in range. -/
def rerollLoop (n : Nat) (rng : Nat → Nat) (l : Nat) :
    Nat → Nat → Nat → Nat × Nat
  | 0, cand, c => (cand, c)
  | fuel + 1, cand, c =>
    if cand = l then rerollLoop n rng l fuel (rng c % n) (c + 1)
    else (cand, c)

/-- game.py lines 186-196: core turns, biased random draw avoiding an
immediate repeat (soft, at most 3 re-rolls).  Arguments: draws left, last
drawn index, rng call counter. -/
def coreDraw (n : Nat) (rng : Nat → Nat) :
    Nat → Option Nat → Nat → List Nat
  | 0, _, _ => []
  | k + 1, last, c =>
    let cand0 := rng c % n
    let (cand, c2) :=
      match last with
      | some l => if 1 < n then rerollLoop n rng l 3 cand0 (c + 1) else (cand0, c + 1)
      | none => (cand0, c + 1)
    cand :: coreDraw n rng k (some cand) c2

/-- game.py GameController._build_turn_sequence. -/
def buildTurnSequence (texts : List String) (rounds : Nat)
    (plan : Option Plan) (rng : Nat → Nat) : List Nat :=
  let n := texts.length
  if n = 0 ∨ rounds = 0 then []
  else
    match plan with
    | none => (List.range rounds).map (· % n)
    | some pl =>
      let wc := warmCoolCounts rounds pl.warmup_ratio pl.cooldown_ratio
      let warmN := wc.1
      let coolN := wc.2
      let coreN := rounds - warmN - coolN
      let idxsSorted := sortedByLen texts
      let warmup := (List.range warmN).map (fun i => idxsSorted.getD (i % n) 0)
      let cooldown := (List.range coolN).map (fun i => idxsSorted.getD (i % n) 0)
      let core := coreDraw n rng coreN none 0
      warmup ++ core ++ cooldown

/-! ### game.py — session worker (GameController._run)

The worker interacts with external collaborators: TTS, the recorder, the
transcriber, the reference-profile store and persistence.  Each is an
oracle; calls whose exceptions the Python code does not catch locally are
Except-valued (the exception is a message string), calls wrapped in a local
try/except-pass are pure oracles.  The stop event is modelled as a per-turn
flag (constant within one turn); pause never being entered is the modelled
schedule.  Exceptions carry the controller state at the raise point, so the
top-level except/finally of _run can be translated exactly. -/

inductive GameState where
  | IDLE | STARTING | PLAYING | LISTENING | ANALYZING | PAUSED | STOPPING | FINISHED
  deriving DecidableEq, Repr

/-- One row handed to dl.save_session; the cool-down rows of the fatigue
path store no score (final_score=None in the code). -/
structure SavedRow where
  sentenceIndex : Nat
  expectedText : String
  recognizedText : String
  werValue : Option ℚ
  durationSec : ℚ
  finalScore : Option ℚ
  deriving DecidableEq, Repr

/-- The controller state observed and mutated by the worker: the queued
turn sequence, the per-sentence repeat counters (a dict), the end reason,
the rolling fatigue windows, and traces of persisted rows, status messages,
recorded file paths and processed turns. -/
structure LoopState where
  state : GameState
  seq : List Nat
  repeats : List (Nat × Nat)
  lastEndReason : String
  recentScores : List ℚ
  recentDurations : List ℚ
  endedEarly : Bool
  completedItems : Nat
  savedRows : List SavedRow
  statuses : List String
  lastPhrase : Option String
  lastFinalScore : ℚ
  recordedPaths : List String
  processedTurns : List (Nat × Nat)
  deriving DecidableEq, Repr

/-- Oracle inputs of one fatigue cool-down item: the path returned by
record_and_playback and the (text, wer, duration) triple of recognize_wav. -/
structure CoolInput where
  wav : String
  recText : String
  werValue : ℚ
  dur : ℚ
  deriving DecidableEq, Repr

/-- Oracle inputs of one regular turn. -/
structure TurnInput where
  speakExc : Option String
  rec1 : Except String ℚ
  rec2 : Except String ℚ
  asr : Except String (String × List Word)
  refTarget : Bool
  refContrast : Bool
  aScoreVal : ℚ
  aContrastVal : ℚ
  saveExc : Option String
  cools : List CoolInput

/-- The environment of one session run. -/
structure Env where
  stop : Nat → Bool
  turns : Nat → TurnInput
  goalExc : Option String
  bravoExc : Option String
  rng : Nat → Nat
  childId : Nat
  ts : Nat → Nat

def defaultCool : CoolInput := ⟨"", "", 0, 0⟩

/-- The per-turn output file path f"{child}_{story}_{timestamp}_{i+1}.wav"
(game.py lines 267-270); the timestamp is an oracle per turn. -/
def wavPathFor (env : Env) (story : Story) (i : Nat) : String :=
  Nat.repr env.childId ++ "_" ++ Nat.repr story.story_id ++ "_" ++
    Nat.repr (env.ts i) ++ "_" ++ Nat.repr (i + 1) ++ ".wav"

/-- repeats.get(sent_idx, 0). -/
def repeatsGet (m : List (Nat × Nat)) (k : Nat) : Nat :=
  ((m.find? (fun p => p.1 = k)).map Prod.snd).getD 0

/-- repeats[sent_idx] = v. -/
def repeatsSet (m : List (Nat × Nat)) (k v : Nat) : List (Nat × Nat) :=
  (k, v) :: m.filter (fun p => p.1 ≠ k)

/-- game.py lines 334-348: adaptive repetition.  If the plan asks to repeat
on failure, the score is below 0.45, a next turn exists and the per-sentence
counter is below the plan maximum, the next queued turn is overwritten with
the same sentence index and the counter is incremented. -/
def repeatStep (plan : Option Plan) (st : LoopState) (i sentIdx : Nat)
    (finalScore : ℚ) (total : Nat) : LoopState :=
  match plan with
  | none => st
  | some pl =>
    if pl.repeat_on_fail = true ∧ finalScore < 9/20 ∧ i + 1 < total then
      let used := repeatsGet st.repeats sentIdx
      if used < pl.max_repeats_per_sentence then
        { st with repeats := repeatsSet st.repeats sentIdx (used + 1),
                  seq := st.seq.set (i + 1) sentIdx,
                  statuses := st.statuses ++ ["🔁 On la refait une fois"] }
      else st
    else st

/-- game.py lines 383-386: keep only the last 4 entries. -/
def last4 (l : List ℚ) : List ℚ :=
  if 4 < l.length then l.drop (l.length - 4) else l

/-- game.py lines 392-399: the fatigue trigger condition, evaluated on the
rolling windows after the current turn was appended. -/
def fatigueCond (st : LoopState) : Prop :=
  let first2 := (st.recentScores.getD 0 0 + st.recentScores.getD 1 0) / 2
  let last2 := (st.recentScores.getD 2 0 + st.recentScores.getD 3 0) / 2
  let dFirst2 := (st.recentDurations.getD 0 0 + st.recentDurations.getD 1 0) / 2
  let dLast2 := (st.recentDurations.getD 2 0 + st.recentDurations.getD 3 0) / 2
  let failures := (st.recentScores.filter (fun s => decide (s < 9/20))).length
  3 ≤ failures ∨ (last2 < first2 - 3/20 ∧ dLast2 > dFirst2 * 6/5)

instance (st : LoopState) : Decidable (fatigueCond st) := by
  unfold fatigueCond; infer_instance

/-- Whether the fatigue branch is entered (game.py line 392): an active
plan, not already ended early, and a full window of 4 recent outcomes. -/
def shouldFatigue (plan : Option Plan) (st : LoopState) : Prop :=
  plan.isSome = true ∧ st.endedEarly = false ∧ 4 ≤ st.recentScores.length ∧
    fatigueCond st

instance (plan : Option Plan) (st : LoopState) : Decidable (shouldFatigue plan st) := by
  unfold shouldFatigue; infer_instance

/-- The cool-down loop of the fatigue branch (game.py lines 411-449): for
each cool-down sentence index, unless stopped, record-and-playback, quick
recognition, and a persistence row without full scoring. -/
def coolLoop (env : Env) (story : Story) (i : Nat) (n : Nat) :
    List Nat → Nat → LoopState → LoopState
  | [], _, st => st
  | cs :: restCool, k, st =>
    if env.stop i then st
    else
      let sent2 := story.sentences.getD (cs % n) ⟨"", "", "", ""⟩
      let cool := (env.turns i).cools.getD k defaultCool
      let st := { st with
        statuses := st.statuses ++ ["✅ Dernière phrase : " ++ sent2.text],
        savedRows := st.savedRows ++
          [{ sentenceIndex := i, expectedText := sent2.text,
             recognizedText := cool.recText, werValue := some cool.werValue,
             durationSec := cool.dur, finalScore := none }],
        completedItems := st.completedItems + 1 }
      coolLoop env story i n restCool (k + 1) st

/-- The persistence rows produced by coolLoop on the cool-down indices L,
starting at cool-oracle position k (used to characterize the fatigue
branch): one row per item, stored without full scoring (final_score None). -/
def coolRowsFrom (env : Env) (story : Story) (i n : Nat) :
    List Nat → Nat → List SavedRow
  | [], _ => []
  | cs :: restCool, k =>
    let sent2 := story.sentences.getD (cs % n) ⟨"", "", "", ""⟩
    let cool := (env.turns i).cools.getD k defaultCool
    { sentenceIndex := i, expectedText := sent2.text,
      recognizedText := cool.recText, werValue := some cool.werValue,
      durationSec := cool.dur, finalScore := none } ::
      coolRowsFrom env story i n restCool (k + 1)

/-- The cool-down sequence of the fatigue branch (game.py lines 407-409):
the min(3, n) easiest sentences by text length. -/
def coolSeqOf (story : Story) : List Nat :=
  let n := story.sentences.length
  let idxsSorted := sortedByLen (story.sentences.map Sentence.text)
  (List.range (min 3 n)).map (fun k => idxsSorted.getD (k % n) 0)

/-- game.py lines 400-450: the triggered fatigue branch.  Marks the session
ended early with reason "fatigue", announces the slow-down, and runs a
cool-down of the min(3, n) easiest-by-length sentences. -/
def fatigueStep (env : Env) (story : Story) (st : LoopState) (i : Nat) :
    LoopState :=
  let st := { st with
    endedEarly := true, lastEndReason := "fatigue",
    statuses := st.statuses ++ ["😮‍💨 On ralentit et on termine tranquillement…"] }
  let n := story.sentences.length
  if n = 0 then st
  else coolLoop env story i n (coolSeqOf story) 0 st

/-- End of a completed turn (game.py lines 391-467): either the fatigue
branch fires and the turn loop is exited, or the turn-finished status is
posted and the loop continues. -/
def fatigueOrFinish (env : Env) (story : Story) (plan : Option Plan)
    (total : Nat) (st : LoopState) (i : Nat) : LoopState × Bool :=
  if shouldFatigue plan st then (fatigueStep env story st i, true)
  else
    ({ st with statuses := st.statuses ++
        ["✅ Tour " ++ Nat.repr (i + 1) ++ "/" ++ Nat.repr total ++ " terminé"] },
     false)

/-- The analysis phase of a turn (game.py lines 309-467) after a recording
of duration dur was accepted at wavPath: transcription, scoring, adaptive
repetition, persistence, rolling windows, fatigue check. -/
def analyzePhase (env : Env) (story : Story) (plan : Option Plan)
    (total : Nat) (st : LoopState) (i sentIdx : Nat) (dur : ℚ) :
    Except (String × LoopState) (LoopState × Bool) :=
  let t := env.turns i
  let n := story.sentences.length
  let sent := story.sentences.getD (sentIdx % n) ⟨"", "", "", ""⟩
  let expected := sent.text
  let st := { st with state := GameState.ANALYZING,
                      statuses := st.statuses ++ ["🧠 Analyse en cours"] }
  match t.asr with
  | .error e => .error (e, st)
  | .ok (recText, _words) =>
    let w := pedagogic_wer expected recText
    let aScore := if t.refTarget then t.aScoreVal else 0
    let _aContrast := if t.refContrast then t.aContrastVal else 0
    let finalScore := final_score_v71 w aScore
    let st := { st with lastFinalScore := finalScore }
    let st := repeatStep plan st i sentIdx finalScore total
    match t.saveExc with
    | some e => .error (e, st)
    | none =>
      let row : SavedRow :=
        { sentenceIndex := i, expectedText := expected,
          recognizedText := recText, werValue := some w,
          durationSec := dur, finalScore := some finalScore }
      let st := { st with savedRows := st.savedRows ++ [row],
                          completedItems := st.completedItems + 1 }
      let st := { st with recentScores := last4 (st.recentScores ++ [finalScore]),
                          recentDurations := last4 (st.recentDurations ++ [dur]) }
      .ok (fatigueOrFinish env story plan total st i)

/-- One iteration of the turn loop (game.py lines 233-467).  Returns the
new state and whether the loop was exited (stop or fatigue).  Exceptions of
uncaught external calls carry the state at the raise point. -/
def runTurn (env : Env) (story : Story) (plan : Option Plan) (total : Nat)
    (st : LoopState) (i : Nat) : Except (String × LoopState) (LoopState × Bool) :=
  if env.stop i then
    .ok ({ st with lastEndReason := "stopped" }, true)
  else
    let t := env.turns i
    let n := story.sentences.length
    let sentIdx := st.seq.getD i 0
    let sent := story.sentences.getD (sentIdx % n) ⟨"", "", "", ""⟩
    let expected := sent.text
    let st := { st with lastPhrase := some expected,
                        processedTurns := st.processedTurns ++ [(i, sentIdx)],
                        statuses := st.statuses ++ ["🔊 Écoute bien"] }
    match t.speakExc with
    | some e => .error (e, st)
    | none =>
      let st := { st with state := GameState.LISTENING,
                          statuses := st.statuses ++
                            ["🎙️ Prêt ? Répète la phrase quand tu veux !"] }
      let basePath := wavPathFor env story i
      match t.rec1 with
      | .error e => .error (e, st)
      | .ok d1 =>
        let st := { st with recordedPaths := st.recordedPaths ++ [basePath] }
        if 7/20 ≤ d1 then
          analyzePhase env story plan total st i sentIdx d1
        else
          let st := { st with
            statuses := st.statuses ++ ["🎙️ Trop court, on recommence"] }
          match t.rec2 with
          | .error e => .error (e, st)
          | .ok d2 =>
            let retryPath := pyReplace basePath ".wav" "_retry1.wav"
            let st := { st with recordedPaths := st.recordedPaths ++ [retryPath] }
            if 7/20 ≤ d2 then
              analyzePhase env story plan total st i sentIdx d2
            else
              let st := { st with statuses := st.statuses ++
                ["🎙️ Trop court, on recommence", "⚠️ Enregistrement trop court"] }
              .ok (st, false)

/-- The turn loop: iterate runTurn from index i while i < total and no
iteration exited. -/
def runLoop (env : Env) (story : Story) (plan : Option Plan) (total : Nat)
    (st : LoopState) (i : Nat) : Except (String × LoopState) LoopState :=
  if _h : i < total then
    match runTurn env story plan total st i with
    | .error e => .error e
    | .ok (st2, exited) =>
      if exited then .ok st2 else runLoop env story plan total st2 (i + 1)
  else .ok st
termination_by total - i
decreasing_by omega

/-- game.py lines 469-471: any reason other than "stopped" is rewritten to
"finished" once the loop is over. -/
def postLoopReason (r : String) : String :=
  if r ≠ "stopped" then "finished" else r

def initLoopState : LoopState :=
  { state := GameState.STARTING, seq := [], repeats := [],
    lastEndReason := "idle", recentScores := [], recentDurations := [],
    endedEarly := false, completedItems := 0, savedRows := [],
    statuses := [], lastPhrase := none, lastFinalScore := 0,
    recordedPaths := [], processedTurns := [] }

/-- The body of the try block of _run (game.py lines 202-475): enter
PLAYING, optionally speak the goal, build the turn sequence, run the loop,
normalize the end reason, enter FINISHED and speak the praise line. -/
def runBody (env : Env) (story : Story) (rounds : Nat) (plan : Option Plan) :
    Except (String × LoopState) LoopState :=
  let st := { initLoopState with state := GameState.PLAYING,
                                 statuses := ["🎮 Session démarrée"] }
  let goalStep : Except (String × LoopState) LoopState :=
    if story.goal ≠ "" then
      match env.goalExc with
      | some e => .error (e, st)
      | none => .ok st
    else .ok st
  match goalStep with
  | .error e => .error e
  | .ok st =>
    let seq := buildTurnSequence (story.sentences.map Sentence.text) rounds plan env.rng
    let total := seq.length
    let st := { st with seq := seq }
    match runLoop env story plan total st 0 with
    | .error e => .error e
    | .ok st =>
      let st := { st with lastEndReason := postLoopReason st.lastEndReason }
      let st := { st with state := GameState.FINISHED,
                          statuses := st.statuses ++ ["🎉 Fin du jeu"] }
      match env.bravoExc with
      | some e => .error (e, st)
      | none => .ok st

/-- The whole worker task (game.py lines 200-490): the try body, the
top-level except that records end-reason "error" and surfaces a status, and
the finally that always returns the state machine to IDLE. -/
def runWorker (env : Env) (story : Story) (rounds : Nat) (plan : Option Plan) :
    LoopState :=
  match runBody env story rounds plan with
  | .ok st => { st with state := GameState.IDLE }
  | .error (e, st) =>
    { st with lastEndReason := "error",
              statuses := st.statuses ++ ["❌ Erreur: " ++ e],
              state := GameState.IDLE }

/-- Whether an Except computation raised. -/
def isErr : Except (String × LoopState) LoopState → Bool
  | .error _ => true
  | .ok _ => false

/-! ### game.py — GameController.start -/

/-- The controller fields read by start(). -/
structure Controller where
  state : GameState
  childId : Option Int
  storiesCount : Nat
  inputDevice : Option Int
  stopSet : Bool
  lastEndReason : String
  sessionPlan : Option Plan
  deriving DecidableEq, Repr

/-- Python truthiness of self.child_id (None and 0 are falsy). -/
def optFalsy : Option Int → Bool
  | none => true
  | some v => v = 0

inductive StartOutcome where
  | noop
  | raised (msg : String)
  | spawned (story : Story) (rounds : Nat) (plan : Option Plan)
  deriving Repr

/-- game.py GameController.start (lines 92-121).  pick is the story
returned by stories.pick(). -/
def startController (c : Controller) (rounds : Nat) (plan : Option Plan)
    (pick : Option Story) : Controller × StartOutcome :=
  if c.state ≠ GameState.IDLE then (c, StartOutcome.noop)
  else if optFalsy c.childId then (c, StartOutcome.raised "Aucun enfant sélectionné.")
  else if c.storiesCount = 0 then (c, StartOutcome.raised "Aucune story chargée.")
  else if c.inputDevice = none then (c, StartOutcome.raised "Aucun micro sélectionné.")
  else
    let c2 := { c with state := GameState.STARTING, stopSet := false,
                       lastEndReason := "idle", sessionPlan := plan }
    let rounds2 := match plan with
      | some pl => if pl.rounds ≠ 0 then pl.rounds else rounds
      | none => rounds
    match pick with
    | none => (c2, StartOutcome.raised "Impossible de sélectionner une story.")
    | some story => (c2, StartOutcome.spawned story rounds2 plan)

/-! ### Concrete instances used in counterexamples and witnesses -/

/-- Recorder parameters for the C4 analysis: 1 calibration block,
silence_need 1, min_total 3, min_speech 1, budget 10 blocks. -/
def pC4 : RecParams := ⟨10, 1, 3, 1, 1, 15/1000, 3, 480, 16000⟩

/-- Block RMS stream for pC4: the calibration block (index 0) is silent,
capture block 0 (index 1) is loud, everything after is silent. -/
def blocksC4 : Nat → ℚ := fun n => if n = 1 then 1 else 0

/-- Recorder parameters with the default block counts of audio.py
(12 s budget, 1 s silence, 1.2 s min total, 0.6 s min speech, 0.45 s
calibration at 30 ms blocks, 16 kHz). -/
def pDef : RecParams := ⟨400, 33, 40, 20, 15, 15/1000, 3, 480, 16000⟩

/-- Stream for pDef: 15 silent calibration blocks, 20 loud capture blocks,
silence afterwards. -/
def blocksDef : Nat → ℚ := fun n => if n < 15 then 0 else if n < 35 then 1 else 0

/-- Two-sentence story ("a" easier than "bb") used by the session runs. -/
def storyA : Story :=
  ⟨"T", 2, "", [⟨"a", "a", "p", "q"⟩, ⟨"bb", "b", "p", "q"⟩]⟩

/-- Plan of 4 rounds with adaptive repetition disabled (fatigue run). -/
def planC1 : Plan := ⟨4, 0, 0, false, 0⟩

/-- Turn oracles of the fatigue run: every recording lasts 1 s, every
transcript matches ("a", WER 0); the acoustic oracle makes the final
scores 0.9, 0.4, 0.4, 0.4, so 3 of the last 4 fall below 0.45. -/
def tiC1 (i : Nat) : TurnInput :=
  { speakExc := none, rec1 := .ok 1, rec2 := .ok 1,
    asr := .ok ("a", []), refTarget := true, refContrast := false,
    aScoreVal := if i = 0 then 9/13 else -11/13, aContrastVal := 0,
    saveExc := none,
    cools := [⟨"c0.wav", "x", 0, 1⟩, ⟨"c1.wav", "y", 0, 1⟩] }

def envC1 : Env :=
  { stop := fun _ => false, turns := tiC1, goalExc := none, bravoExc := none,
    rng := fun _ => 0, childId := 1, ts := fun _ => 1000 }

/-- Plan of 4 rounds with repeat-on-fail and max 1 repeat per sentence. -/
def planC5 : Plan := ⟨4, 0, 0, true, 1⟩

/-- Turn oracles of the repeat-on-fail run: turns 0 and 3 score 0.9,
turns 1 and 2 score 0.3 (mismatching transcript, WER 1). -/
def tiC5 (i : Nat) : TurnInput :=
  { speakExc := none, rec1 := .ok 1, rec2 := .ok 1,
    asr := .ok (if i = 0 ∨ i = 3 then "a" else "x", []),
    refTarget := true, refContrast := false,
    aScoreVal := if i = 0 ∨ i = 3 then 9/13 else -1/13, aContrastVal := 0,
    saveExc := none, cools := [] }

/-- rng drawing sentence 1 for the first core turn and sentence 0 for the
second, so the built sequence is [0, 1, 0, 0]. -/
def envC5 : Env :=
  { stop := fun _ => false, turns := tiC5, goalExc := none, bravoExc := none,
    rng := fun c => if c = 0 then 1 else 0, childId := 1, ts := fun _ => 1000 }

/-- Turn oracles for the retry/skip witness: both recording attempts are
too short (0.1 s then 0.2 s). -/
def tiC6 (_i : Nat) : TurnInput :=
  { speakExc := none, rec1 := .ok (1/10), rec2 := .ok (2/10),
    asr := .ok ("a", []), refTarget := false, refContrast := false,
    aScoreVal := 0, aContrastVal := 0, saveExc := none, cools := [] }

def envC6 : Env :=
  { stop := fun _ => false, turns := tiC6, goalExc := none, bravoExc := none,
    rng := fun _ => 0, childId := 1, ts := fun _ => 1000 }

def stC6 : LoopState := { initLoopState with seq := [0] }

/-- A story with a non-empty goal line and an environment whose goal TTS
call raises, for the error-path witness. -/
def storyC8 : Story := ⟨"T", 2, "g", [⟨"a", "a", "p", "q"⟩]⟩

def envC8 : Env :=
  { stop := fun _ => false, turns := tiC1, goalExc := some "boom",
    bravoExc := none, rng := fun _ => 0, childId := 1, ts := fun _ => 1000 }

/-- A loop state whose queued sequence is [0, 1, 0, 0] (witness for the
repeat-on-fail overwrite at turn 1). -/
def stC5a : LoopState := { initLoopState with seq := [0, 1, 0, 0] }

/-- A loop state in which sentence 1 has already been repeated once
(witness for the never-twice bound with max_repeats_per_sentence = 1). -/
def stC5b : LoopState :=
  { initLoopState with seq := [0, 1, 1, 0], repeats := [(1, 1)] }

/-- A controller mid-session (PLAYING) with no child, no stories and no
microphone configured, for the start() no-op witness. -/
def ctrlBusy : Controller :=
  { state := GameState.PLAYING, childId := none, storiesCount := 0,
    inputDevice := none, stopSet := false, lastEndReason := "idle",
    sessionPlan := none }

/-! ## Theorems -/

/-! ### Helper lemmas -/

theorem coreDraw_length (n : Nat) (rng : Nat → Nat) :
    ∀ (k : Nat) (last : Option Nat) (c : Nat),
      (coreDraw n rng k last c).length = k := by
  intro k
  induction k with
  | zero => intro last c; rfl
  | succ k ih =>
    intro last c
    simp only [coreDraw]
    cases last with
    | none => simp [ih]
    | some l =>
      by_cases h : 1 < n <;> simp [h, ih]

/-- After the clamp of game.py lines 177-179, warm + cool never exceeds
rounds once rounds ≥ 2. -/
theorem warmCool_le (rounds : Nat) (wr cr : ℚ) (h2 : 2 ≤ rounds) :
    (warmCoolCounts rounds wr cr).1 + (warmCoolCounts rounds wr cr).2 ≤ rounds := by
  unfold warmCoolCounts
  by_cases hc : rounds ≤ (max 1 (truncQ ((rounds : ℚ) * wr))).toNat +
      (max 1 (truncQ ((rounds : ℚ) * cr))).toNat
  · simp only [hc, if_pos]
    rcases Nat.lt_or_ge rounds 3 with h3 | h3
    · have : rounds = 2 := by omega
      subst this; decide
    · have hd : 1 ≤ rounds / 3 := (Nat.one_le_div_iff (by omega)).mpr h3
      have hm : max 1 (rounds / 3) = rounds / 3 := Nat.max_eq_right hd
      have hdm : rounds / 3 * 3 ≤ rounds := Nat.div_mul_le_self rounds 3
      simp only [hm]
      omega
  · simp only [hc, if_neg, if_false]
    omega

/-! ### C9 -/

/-- C9: for all wer and acoustic inputs the final score is
0.35 * (1 − clamp(wer, 0, 1)) + 0.65 * clamp((acoustic + 1) / 2, 0, 1), and
final_score_v71(0.2, 0.6) is exactly 0.80 (so within 1e-6 of it). -/
theorem C9_final_score :
    (∀ w a : ℚ, final_score_v71 w a =
      35/100 * (1 - clamp w 0 1) + 65/100 * clamp ((a + 1) / 2) 0 1) ∧
    final_score_v71 (2/10) (6/10) = 8/10 ∧
    |final_score_v71 (2/10) (6/10) - 8/10| < 1/1000000 := by
  refine ⟨fun w a => rfl, by with_unfolding_all decide, by with_unfolding_all decide⟩

/-! ### C10 -/

/-- C10: calling start() while the state machine is not IDLE is a silent
no-op: no configuration check runs (no exception even with no child, no
stories, no microphone), no worker is spawned, and the controller fields
are unchanged. -/
theorem C10_start_noop (c : Controller) (rounds : Nat) (plan : Option Plan)
    (pick : Option Story) (h : c.state ≠ GameState.IDLE) :
    startController c rounds plan pick = (c, StartOutcome.noop) := by
  simp [startController, h]

theorem C10_witness :
    ctrlBusy.state ≠ GameState.IDLE ∧
    startController ctrlBusy 6 none none = (ctrlBusy, StartOutcome.noop) :=
  ⟨by decide, C10_start_noop ctrlBusy 6 none none (by decide)⟩

/-! ### C3 -/

/-- C3 counterexample: for a ratio-based plan with rounds = 2 (ratios 0.15
as in the standard plans), the clamp still yields warm = cool = 1, and
warm + cool = 2 is not strictly less than rounds = 2. -/
theorem C3_counterexample :
    warmCoolCounts 2 (15/100) (15/100) = (1, 1) ∧
    ¬((warmCoolCounts 2 (15/100) (15/100)).1 +
      (warmCoolCounts 2 (15/100) (15/100)).2 < 2) := by
  constructor <;> with_unfolding_all decide

/-- C3 amended: for every ratio-based plan with rounds ≥ 3 (instead of
rounds > 0), after the clamping step warm + cool < rounds, so at least one
core turn remains.  At rounds ∈ {1, 2} the clamped counts are 1 and 1 and
the property fails. -/
theorem C3_amended_clamp (rounds : Nat) (wr cr : ℚ) (h3 : 3 ≤ rounds) :
    (warmCoolCounts rounds wr cr).1 + (warmCoolCounts rounds wr cr).2 < rounds := by
  unfold warmCoolCounts
  by_cases hc : rounds ≤ (max 1 (truncQ ((rounds : ℚ) * wr))).toNat +
      (max 1 (truncQ ((rounds : ℚ) * cr))).toNat
  · have hd : 1 ≤ rounds / 3 := (Nat.one_le_div_iff (by omega)).mpr h3
    have hm : max 1 (rounds / 3) = rounds / 3 := Nat.max_eq_right hd
    have hdm : rounds / 3 * 3 ≤ rounds := Nat.div_mul_le_self rounds 3
    simp only [hc, if_pos, hm]
    omega
  · simp only [hc, if_neg, if_false]
    omega

theorem C3_witness :
    (3 ≤ 14) ∧
    (warmCoolCounts 14 (15/100) (15/100)).1 +
      (warmCoolCounts 14 (15/100) (15/100)).2 < 14 :=
  ⟨by decide, C3_amended_clamp 14 (15/100) (15/100) (by decide)⟩

/-! ### C2 -/

/-- C2 counterexample: with a non-empty pool and a ratio-based plan with
rounds = 1 > 0, the built sequence has length 2, not 1 (the clamp sets
warm = cool = max(1, 1 // 3) = 1 and core = 0). -/
theorem C2_counterexample :
    buildTurnSequence ["a"] 1 (some ⟨1, 1/2, 1/2, false, 0⟩) (fun _ => 0) = [0, 0] ∧
    (buildTurnSequence ["a"] 1 (some ⟨1, 1/2, 1/2, false, 0⟩) (fun _ => 0)).length ≠ 1 := by
  constructor <;> with_unfolding_all decide

/-- C2 amended: for every non-empty sentence pool and ratio-based plan with
rounds ≥ 2 (instead of rounds > 0), the turn sequence built at session
start has length exactly rounds; at rounds = 1 the length is 2. -/
theorem C2_amended_length (texts : List String) (rounds : Nat) (pl : Plan)
    (rng : Nat → Nat) (hne : texts ≠ []) (h2 : 2 ≤ rounds) :
    (buildTurnSequence texts rounds (some pl) rng).length = rounds := by
  have hn : texts.length ≠ 0 := fun h0 => hne (List.length_eq_zero.mp h0)
  have hr : rounds ≠ 0 := by omega
  have hle := warmCool_le rounds pl.warmup_ratio pl.cooldown_ratio h2
  unfold buildTurnSequence
  rw [if_neg (by simp [hn, hr])]
  simp only [List.length_append, List.length_map, List.length_range, coreDraw_length]
  omega

theorem C2_witness :
    ((["a", "bb"] : List String) ≠ []) ∧
    (buildTurnSequence ["a", "bb"] 14 (some ⟨14, 15/100, 15/100, true, 1⟩)
      (fun _ => 0)).length = 14 :=
  ⟨by decide, C2_amended_length ["a", "bb"] 14 ⟨14, 15/100, 15/100, true, 1⟩
    (fun _ => 0) (by decide) (by omega)⟩

/-! ### C8 -/

/-- C8: for every environment (normal completion, stop, fatigue, or an
exception raised at any of the uncaught call sites of the turn loop), the
worker ends with the state machine in IDLE; and whenever the try body
raised, the end reason is "error" and an error status is surfaced. -/
theorem C8_worker_idle (env : Env) (story : Story) (rounds : Nat)
    (plan : Option Plan) :
    (runWorker env story rounds plan).state = GameState.IDLE ∧
    (isErr (runBody env story rounds plan) = true →
      (runWorker env story rounds plan).lastEndReason = "error" ∧
      ∃ e, ("❌ Erreur: " ++ e) ∈ (runWorker env story rounds plan).statuses) := by
  rcases h : runBody env story rounds plan with ⟨e, st⟩ | st
  · refine ⟨by simp [runWorker, h], fun _ => ⟨by simp [runWorker, h], ⟨e, ?_⟩⟩⟩
    simp [runWorker, h]
  · exact ⟨by simp [runWorker, h], fun hc => by simp [isErr, h] at hc⟩

theorem C8_witness :
    (runWorker envC8 storyC8 4 none).state = GameState.IDLE ∧
    (runWorker envC8 storyC8 4 none).lastEndReason = "error" ∧
    ∃ e, ("❌ Erreur: " ++ e) ∈ (runWorker envC8 storyC8 4 none).statuses :=
  ⟨(C8_worker_idle envC8 storyC8 4 none).1,
   ((C8_worker_idle envC8 storyC8 4 none).2 (by with_unfolding_all decide)).1,
   ((C8_worker_idle envC8 storyC8 4 none).2 (by with_unfolding_all decide)).2⟩

/-! ### Recorder lemmas (C4, C7) -/

/-- Running the capture loop through m consecutive above-threshold blocks
marks speech started, resets the silence run, and advances the speech,
total and frame counters by m. -/
theorem captureLoop_above (p : RecParams) (capRms : Nat → ℚ)
    (stop : Nat → Bool) (thr : ℚ) (hstop : ∀ j, stop j = false) :
    ∀ (m fuel : Nat) (s : CapSt), 1 ≤ m → m ≤ fuel →
      (∀ j, j < m → thr < capRms (s.total + j)) →
      captureLoop p capRms stop thr fuel s =
        captureLoop p capRms stop thr (fuel - m)
          ⟨true, 0, s.speech + m, s.total + m, s.frames + m⟩ := by
  intro m
  induction m with
  | zero => omega
  | succ m ih =>
    intro fuel s _ hfuel habove
    obtain ⟨f, rfl⟩ : ∃ f, fuel = f + 1 := ⟨fuel - 1, by omega⟩
    have h0 : thr < capRms s.total := by
      have := habove 0 (by omega); simpa using this
    simp only [captureLoop, hstop, Bool.false_eq_true, if_false, gt_iff_lt,
      if_pos h0]
    rcases Nat.eq_zero_or_pos m with hm | hm
    · subst hm
      simp
    · rw [ih f _ hm (by omega)
        (fun j hj => by
          have := habove (j + 1) (by omega)
          simpa [Nat.add_assoc, Nat.add_comm 1 j] using this)]
      have e1 : f + 1 - (m + 1) = f - m := by omega
      have e2 : s.speech + 1 + m = s.speech + (m + 1) := by omega
      have e3 : s.total + 1 + m = s.total + (m + 1) := by omega
      have e4 : s.frames + 1 + m = s.frames + (m + 1) := by omega
      rw [e1, e2, e3, e4]

/-- From a started state with enough speech blocks, a run of rem
below-threshold blocks (rem completing the required silence run, the total
reaching min_total) ends the loop exactly at the rem-th one. -/
theorem captureLoop_below (p : RecParams) (capRms : Nat → ℚ)
    (stop : Nat → Bool) (thr : ℚ) (hstop : ∀ j, stop j = false) :
    ∀ (rem fuel : Nat) (s : CapSt), s.started = true →
      p.minSpeech ≤ s.speech → s.silent + rem = p.silenceNeed → 1 ≤ rem →
      rem ≤ fuel → p.minTotal ≤ s.total + rem →
      (∀ j, j < rem → capRms (s.total + j) ≤ thr) →
      captureLoop p capRms stop thr fuel s =
        ⟨true, p.silenceNeed, s.speech, s.total + rem, s.frames + rem⟩ := by
  intro rem
  induction rem with
  | zero => omega
  | succ rem ih =>
    intro fuel s hst hsp hsil _ hfuel htot hbelow
    obtain ⟨f, rfl⟩ : ∃ f, fuel = f + 1 := ⟨fuel - 1, by omega⟩
    obtain ⟨sb, ssil, ssp, stot, sfr⟩ := s
    simp only at hst hsp hsil htot hbelow ⊢
    subst hst
    have h0 : ¬(thr < capRms stot) := by
      have h := hbelow 0 (by omega)
      simp only [Nat.add_zero] at h
      exact not_lt.mpr h
    rcases Nat.eq_zero_or_pos rem with hz | hpos
    · subst hz
      simp only [captureLoop, hstop, Bool.false_eq_true, if_false, gt_iff_lt,
        if_neg h0, if_true]
      rw [if_pos (show p.minSpeech ≤ ssp ∧ p.minTotal ≤ stot + 1 ∧
        p.silenceNeed ≤ ssil + 1 from ⟨hsp, by omega, by omega⟩)]
      simp only [CapSt.mk.injEq, true_and, and_true, eq_self_iff_true]
      omega
    · simp only [captureLoop, hstop, Bool.false_eq_true, if_false, gt_iff_lt,
        if_neg h0, if_true]
      rw [if_neg (show ¬(p.minSpeech ≤ ssp ∧ p.minTotal ≤ stot + 1 ∧
        p.silenceNeed ≤ ssil + 1) from fun hand => absurd hand.2.2 (by omega))]
      rw [ih f ⟨true, ssil + 1, ssp, stot + 1, sfr + 1⟩ rfl hsp
        (show ssil + 1 + rem = p.silenceNeed by omega) hpos
        (show rem ≤ f by omega)
        (show p.minTotal ≤ stot + 1 + rem by omega)
        (fun j hj => by
          have h := hbelow (j + 1) (by omega)
          have e : stot + 1 + j = stot + (j + 1) := by omega
          rw [e]
          exact h)]
      simp only [CapSt.mk.injEq, true_and, and_true, eq_self_iff_true]
      omega

/-! ### C4 -/

/-- C4 counterexample: with calib = 1, silence_need = 1, min_total = 3,
min_speech = 1 and budget 10, the stream "1 silent calibration block, 1
above-threshold block, silence afterwards" satisfies the claim's
antecedent with N = 1, M = 1, K = 1 (K = silence_need, M ≥ min_speech,
N+M+K = 3 ≥ min_total, no cancellation), yet the recorder reads 4 blocks
in total, not N+M+K = 3: the code's total-blocks counter starts after
calibration, so the silence run completes before min_total is reached and
one more block is consumed. -/
theorem C4_counterexample :
    pC4.calib = 1 ∧ pC4.silenceNeed = 1 ∧ pC4.minSpeech ≤ 1 ∧
    pC4.minTotal ≤ 3 ∧
    thrOf pC4 blocksC4 < blocksC4 1 ∧ blocksC4 2 < thrOf pC4 blocksC4 ∧
    pC4.calib + (record_until_silence_rms pC4 blocksC4 (fun _ => false)).capReads = 4 ∧
    pC4.calib + (record_until_silence_rms pC4 blocksC4 (fun _ => false)).capReads ≠ 3 := by
  refine ⟨rfl, rfl, by decide, by decide, ?_, ?_, ?_, ?_⟩ <;> with_unfolding_all decide

/-- C4 amended: for a synthetic stream of N = calib calibration blocks,
then M blocks above the computed threshold, then K blocks below it, with
K = silence_need, M ≥ min_speech, M ≥ 1, K ≥ 1, and no cancellation,
the recorder stops after reading exactly N + M + K blocks
provided M + K ≥ min_total (the capture-phase counter excludes the N
calibration blocks — the claim's N+M+K ≥ min_total is not sufficient) and
M + K ≤ max_blocks (the block budget). -/
theorem C4_amended_recorder_stops (p : RecParams) (blocks : Nat → ℚ)
    (stop : Nat → Bool) (M K : Nat)
    (hstop : ∀ j, stop j = false)
    (hK : K = p.silenceNeed) (hM1 : 1 ≤ M) (hK1 : 1 ≤ K)
    (hMsp : p.minSpeech ≤ M) (hMT : p.minTotal ≤ M + K)
    (hbudget : M + K ≤ p.maxBlocks)
    (habove : ∀ j, j < M → thrOf p blocks < blocks (p.calib + j))
    (hbelow : ∀ j, j < M + K → M ≤ j → blocks (p.calib + j) < thrOf p blocks) :
    (record_until_silence_rms p blocks stop).capReads = M + K ∧
    (record_until_silence_rms p blocks stop).frames = M + K := by
  have hcap :
      captureLoop p (fun j => blocks (p.calib + j)) stop (thrOf p blocks)
        p.maxBlocks ⟨false, 0, 0, 0, 0⟩ =
      ⟨true, p.silenceNeed, M, M + K, M + K⟩ := by
    have h1 := captureLoop_above p (fun j => blocks (p.calib + j)) stop
      (thrOf p blocks) hstop M p.maxBlocks ⟨false, 0, 0, 0, 0⟩ hM1
      (by omega) (fun j hj => by simpa using habove j hj)
    simp only [Nat.zero_add] at h1
    rw [h1]
    exact captureLoop_below p (fun j => blocks (p.calib + j)) stop
      (thrOf p blocks) hstop K (p.maxBlocks - M) ⟨true, 0, M, M, M⟩ rfl
      hMsp (show 0 + K = p.silenceNeed by omega) hK1
      (show K ≤ p.maxBlocks - M by omega)
      (show p.minTotal ≤ M + K from hMT)
      (fun j hj => le_of_lt (hbelow (M + j) (by omega) (by omega)))
  simp only [record_until_silence_rms]
  rw [hcap]
  exact ⟨rfl, rfl⟩

/-- C4 witness: with the default block counts of audio.py (calib 15,
silence_need 33, min_total 40, min_speech 20, budget 400) and a stream of
15 silent calibration blocks, 20 loud blocks and silence after, the
recorder reads exactly 15 + 20 + 33 capture+calibration blocks. -/
theorem C4_witness :
    (record_until_silence_rms pDef blocksDef (fun _ => false)).capReads = 53 ∧
    (record_until_silence_rms pDef blocksDef (fun _ => false)).frames = 53 :=
  C4_amended_recorder_stops pDef blocksDef (fun _ => false) 20 33
    (fun _ => rfl) rfl (by decide) (by decide) (by decide) (by decide)
    (by decide)
    (fun j hj => by
      have h : ∀ j, j < 20 → thrOf pDef blocksDef < blocksDef (15 + j) := by
        with_unfolding_all decide
      exact h j hj)
    (fun j hj hMj => by
      have h : ∀ j, j < 53 → 20 ≤ j → blocksDef (15 + j) < thrOf pDef blocksDef := by
        with_unfolding_all decide
      exact h j hj hMj)

/-! ### C7 -/

/-- If the capture loop ends with zero blocks appended — in particular
whenever cancellation is signaled from the start — the recorder does not
fail: it returns a result built from a single near-silent sample, with
duration 1 / sample_rate and the computed threshold. -/
theorem C7_recorder_never_raises (p : RecParams) (blocks : Nat → ℚ) :
    (∀ stop : Nat → Bool, (∀ n, stop n = true) →
      (record_until_silence_rms p blocks stop).frames = 0) ∧
    (∀ stop : Nat → Bool,
      (record_until_silence_rms p blocks stop).frames = 0 →
      (record_until_silence_rms p blocks stop).duration = 1 / p.sr ∧
      (record_until_silence_rms p blocks stop).threshold = thrOf p blocks) := by
  constructor
  · intro stop hstop
    have hcap : captureLoop p (fun j => blocks (p.calib + j)) stop
        (thrOf p blocks) p.maxBlocks ⟨false, 0, 0, 0, 0⟩ = ⟨false, 0, 0, 0, 0⟩ := by
      cases hfuel : p.maxBlocks with
      | zero => rfl
      | succ f => simp [captureLoop, hstop]
    simp only [record_until_silence_rms]
    rw [hcap]
  · intro stop hframes
    simp only [record_until_silence_rms] at hframes ⊢
    refine ⟨?_, trivial⟩
    rw [if_pos hframes]
    norm_num

theorem C7_witness :
    (record_until_silence_rms pDef blocksDef (fun _ => true)).frames = 0 ∧
    (record_until_silence_rms pDef blocksDef (fun _ => true)).duration = 1 / 16000 ∧
    (record_until_silence_rms pDef blocksDef (fun _ => true)).threshold =
      thrOf pDef blocksDef :=
  have h0 := (C7_recorder_never_raises pDef blocksDef).1 (fun _ => true)
    (fun _ => rfl)
  ⟨h0, ((C7_recorder_never_raises pDef blocksDef).2 (fun _ => true) h0).1,
    ((C7_recorder_never_raises pDef blocksDef).2 (fun _ => true) h0).2⟩

/-! ### String replacement lemmas (C6) -/

/-- Replacing a pattern with a longer replacement never shortens the
string. -/
theorem listReplaceF_length_ge (pat rep : List Char)
    (hlen : pat.length ≤ rep.length) :
    ∀ (fuel : Nat) (l : List Char), l.length ≤ (listReplaceF pat rep fuel l).length := by
  intro fuel
  induction fuel with
  | zero => intro l; simp [listReplaceF]
  | succ f ih =>
    intro l
    cases l with
    | nil => simp [listReplaceF]
    | cons x xs =>
      by_cases hp : pat.isPrefixOf (x :: xs) ∧ pat ≠ []
      · have hple : pat.length ≤ (x :: xs).length :=
          (List.isPrefixOf_iff_prefix.mp hp.1).length_le
        simp only [listReplaceF, if_pos hp, List.length_append]
        have hrest := ih ((x :: xs).drop pat.length)
        have hd : ((x :: xs).drop pat.length).length =
            (x :: xs).length - pat.length := List.length_drop _ _
        omega
      · simp only [listReplaceF, if_neg hp, List.length_cons]
        have := ih xs
        omega

/-- Replacing a pattern that occurs in the string with a strictly longer
replacement strictly lengthens the string. -/
theorem listReplaceF_length_gt (pat rep : List Char)
    (hlen : pat.length < rep.length) (hne : pat ≠ []) :
    ∀ (fuel : Nat) (l : List Char), l.length ≤ fuel →
      (∃ a b, l = a ++ pat ++ b) →
      l.length < (listReplaceF pat rep fuel l).length := by
  intro fuel
  induction fuel with
  | zero =>
    intro l hfuel ⟨a, b, hab⟩
    have : pat.length = 0 := by
      have := congrArg List.length hab
      simp at this
      omega
    exact absurd (List.length_eq_zero.mp this) hne
  | succ f ih =>
    intro l hfuel ⟨a, b, hab⟩
    cases l with
    | nil =>
      have : pat.length = 0 := by
        have := congrArg List.length hab
        simp at this
        omega
      exact absurd (List.length_eq_zero.mp this) hne
    | cons x xs =>
      by_cases hp : pat.isPrefixOf (x :: xs) ∧ pat ≠ []
      · have hple : pat.length ≤ (x :: xs).length :=
          (List.isPrefixOf_iff_prefix.mp hp.1).length_le
        simp only [listReplaceF, if_pos hp, List.length_append]
        have hrest := listReplaceF_length_ge pat rep (by omega) f
          ((x :: xs).drop pat.length)
        have hd : ((x :: xs).drop pat.length).length =
            (x :: xs).length - pat.length := List.length_drop _ _
        have hpat1 : 1 ≤ pat.length := by
          cases pat with
          | nil => exact absurd rfl hne
          | cons c cs => simp
        omega
      · have hanil : a ≠ [] := by
          intro h0
          subst h0
          simp only [List.nil_append] at hab
          exact hp ⟨List.isPrefixOf_iff_prefix.mpr ⟨b, hab.symm⟩, hne⟩
        obtain ⟨x2, a2, rfl⟩ := List.exists_cons_of_ne_nil hanil
        simp only [List.cons_append] at hab
        have hxs : xs = a2 ++ pat ++ b := (List.cons.injEq _ _ _ _).mp hab |>.2
        simp only [listReplaceF, if_neg hp, List.length_cons]
        have := ih xs (by simp at hfuel ⊢; omega) ⟨a2, b, hxs⟩
        omega

/-- The per-turn retry path wav_path.replace(".wav", "_retry1.wav") is
always distinct from the original path (which ends in ".wav"). -/
theorem wavPath_retry_ne (env : Env) (story : Story) (i : Nat) :
    pyReplace (wavPathFor env story i) ".wav" "_retry1.wav" ≠
      wavPathFor env story i := by
  intro hcontra
  have hsplit : ∃ a b, (wavPathFor env story i).data =
      a ++ ".wav".data ++ b := by
    refine ⟨(Nat.repr env.childId ++ "_" ++ Nat.repr story.story_id ++ "_" ++
      Nat.repr (env.ts i) ++ "_" ++ Nat.repr (i + 1)).data, [], ?_⟩
    simp [wavPathFor, String.data_append]
  have hgt := listReplaceF_length_gt ".wav".data "_retry1.wav".data
    (by decide) (by decide) (wavPathFor env story i).data.length
    (wavPathFor env story i).data (le_refl _) hsplit
  have hlen : (listReplaceF ".wav".data "_retry1.wav".data
      (wavPathFor env story i).data.length (wavPathFor env story i).data).length =
      (wavPathFor env story i).data.length := by
    have h := congrArg (fun s => s.data.length) hcontra
    simpa [pyReplace] using h
  omega

/-! ### C6 -/

/-- C6: within a turn with no stop signal, a first recording attempt
shorter than 0.35 s is retried exactly once to a distinct output path
(wav_path.replace(".wav", "_retry1.wav")) with user feedback; if the
second attempt is still shorter than 0.35 s the turn is skipped: no
persistence row is written, no score is produced, the rolling windows are
untouched, and the loop continues with the next turn (exit flag false). -/
theorem C6_retry_skip (env : Env) (story : Story) (plan : Option Plan)
    (total : Nat) (st : LoopState) (i : Nat) (d1 d2 : ℚ)
    (hstop : env.stop i = false)
    (hspeak : (env.turns i).speakExc = none)
    (hrec1 : (env.turns i).rec1 = Except.ok d1) (hd1 : d1 < 7/20)
    (hrec2 : (env.turns i).rec2 = Except.ok d2) (hd2 : d2 < 7/20) :
    ∃ st2, runTurn env story plan total st i = Except.ok (st2, false) ∧
      st2.recordedPaths = st.recordedPaths ++
        [wavPathFor env story i,
         pyReplace (wavPathFor env story i) ".wav" "_retry1.wav"] ∧
      pyReplace (wavPathFor env story i) ".wav" "_retry1.wav" ≠
        wavPathFor env story i ∧
      "🎙️ Trop court, on recommence" ∈ st2.statuses ∧
      st2.savedRows = st.savedRows ∧
      st2.completedItems = st.completedItems ∧
      st2.recentScores = st.recentScores ∧
      st2.recentDurations = st.recentDurations ∧
      st2.lastFinalScore = st.lastFinalScore ∧
      st2.seq = st.seq ∧
      st2.repeats = st.repeats := by
  have hn1 : ¬(7/20 ≤ d1) := not_le.mpr hd1
  have hn2 : ¬(7/20 ≤ d2) := not_le.mpr hd2
  refine ⟨{ st with
      state := GameState.LISTENING,
      lastPhrase := some (story.sentences.getD
        (st.seq.getD i 0 % story.sentences.length) ⟨"", "", "", ""⟩).text,
      processedTurns := st.processedTurns ++ [(i, st.seq.getD i 0)],
      statuses := st.statuses ++ ["🔊 Écoute bien"] ++
        ["🎙️ Prêt ? Répète la phrase quand tu veux !"] ++
        ["🎙️ Trop court, on recommence"] ++
        ["🎙️ Trop court, on recommence", "⚠️ Enregistrement trop court"],
      recordedPaths := st.recordedPaths ++ [wavPathFor env story i] ++
        [pyReplace (wavPathFor env story i) ".wav" "_retry1.wav"] },
    ?_, by simp, wavPath_retry_ne env story i, by simp, rfl, rfl, rfl, rfl,
    rfl, rfl, rfl⟩
  simp only [runTurn, hstop, Bool.false_eq_true, if_false, hspeak, hrec1,
    hrec2, if_neg hn1, if_neg hn2]

/-! ### C1 -/

/-- With no stop signal, the cool-down loop appends one status line, one
scoreless persistence row and one completed item per cool-down index. -/
theorem coolLoop_eq (env : Env) (story : Story) (i n : Nat)
    (hstop : env.stop i = false) :
    ∀ (L : List Nat) (k : Nat) (st : LoopState),
      coolLoop env story i n L k st =
        { st with
          statuses := st.statuses ++ L.map (fun cs =>
            "✅ Dernière phrase : " ++
              (story.sentences.getD (cs % n) ⟨"", "", "", ""⟩).text),
          savedRows := st.savedRows ++ coolRowsFrom env story i n L k,
          completedItems := st.completedItems + L.length } := by
  intro L
  induction L with
  | nil =>
    intro k st
    simp [coolLoop, coolRowsFrom]
  | cons cs rest ih =>
    intro k st
    obtain ⟨s1, s2, s3, s4, s5, s6, s7, s8, s9, s10, s11, s12, s13, s14⟩ := st
    simp only [coolLoop, hstop, Bool.false_eq_true, if_false, coolRowsFrom]
    rw [ih]
    simp only [LoopState.mk.injEq, List.map_cons, List.length_cons,
      List.append_assoc, List.cons_append, List.nil_append, true_and,
      and_true]
    omega

/-- Every row written by the fatigue cool-down carries no final score. -/
theorem coolRowsFrom_no_score (env : Env) (story : Story) (i n : Nat) :
    ∀ (L : List Nat) (k : Nat),
      ∀ r ∈ coolRowsFrom env story i n L k, r.finalScore = none := by
  intro L
  induction L with
  | nil => intro k r hr; simp [coolRowsFrom] at hr
  | cons cs rest ih =>
    intro k r hr
    simp only [coolRowsFrom, List.mem_cons] at hr
    rcases hr with rfl | hr
    · rfl
    · exact ih (k + 1) r hr

/-- C1 amended: when fatigue triggers after a completed turn under an
active plan, the session marks itself ended early, momentarily sets the
end-reason to "fatigue", runs a cool-down of min(3, n) ≤ 3 easiest-by-length
sentences without full scoring (their rows carry final_score None), and
exits the turn loop — but the post-loop normalization of game.py lines
469-471 rewrites every reason other than "stopped" to "finished", so the
end-reason observed at session end is "finished", not "fatigue" (and
"finished" is therefore not reserved for normal exhaustion). -/
theorem C1_amended_fatigue :
    (∀ (env : Env) (story : Story) (st : LoopState) (i : Nat),
      env.stop i = false → story.sentences.length ≠ 0 →
      (fatigueStep env story st i).endedEarly = true ∧
      (fatigueStep env story st i).lastEndReason = "fatigue" ∧
      (fatigueStep env story st i).savedRows = st.savedRows ++
        coolRowsFrom env story i story.sentences.length (coolSeqOf story) 0 ∧
      (coolSeqOf story).length = min 3 story.sentences.length ∧
      min 3 story.sentences.length ≤ 3 ∧
      (∀ r ∈ coolRowsFrom env story i story.sentences.length (coolSeqOf story) 0,
        r.finalScore = none) ∧
      (fatigueStep env story st i).processedTurns = st.processedTurns) ∧
    (∀ (env : Env) (story : Story) (plan : Option Plan) (total : Nat)
        (st : LoopState) (i : Nat), shouldFatigue plan st →
      fatigueOrFinish env story plan total st i = (fatigueStep env story st i, true)) ∧
    (∀ r : String, r ≠ "stopped" → postLoopReason r = "finished") := by
  refine ⟨?_, ?_, ?_⟩
  · intro env story st i hstop hn
    have hlen : (coolSeqOf story).length = min 3 story.sentences.length := by
      simp [coolSeqOf]
    refine ⟨?_, ?_, ?_, hlen, by omega, coolRowsFrom_no_score env story i _ _ 0, ?_⟩ <;>
      simp only [fatigueStep, if_neg hn,
        coolLoop_eq env story i story.sentences.length hstop]
  · intro env story plan total st i h
    simp [fatigueOrFinish, h]
  · intro r h
    simp [postLoopReason, h]

/-- C1 counterexample to the claim as stated: a session where fatigue
triggers (ended-early is set and two scoreless cool-down rows are written)
but whose end-reason observed at session end is "finished", not
"fatigue". -/
theorem C1_counterexample :
    (runWorker envC1 storyA 4 (some planC1)).endedEarly = true ∧
    ((runWorker envC1 storyA 4 (some planC1)).savedRows.filter
      (fun r => r.finalScore = none)).length = 2 ∧
    (runWorker envC1 storyA 4 (some planC1)).lastEndReason = "finished" ∧
    (runWorker envC1 storyA 4 (some planC1)).lastEndReason ≠ "fatigue" := by
  refine ⟨?_, ?_, ?_, ?_⟩ <;> with_unfolding_all decide

theorem C1_witness :
    (fatigueStep envC1 storyA initLoopState 0).endedEarly = true ∧
    (fatigueStep envC1 storyA initLoopState 0).lastEndReason = "fatigue" ∧
    postLoopReason "fatigue" = "finished" :=
  ⟨(C1_amended_fatigue.1 envC1 storyA initLoopState 0 rfl (by decide)).1,
   (C1_amended_fatigue.1 envC1 storyA initLoopState 0 rfl (by decide)).2.1,
   C1_amended_fatigue.2.2 "fatigue" (by decide)⟩

/-! ### C5 -/

/-- The repeat counter read after an update. -/
theorem repeatsGet_set (m : List (Nat × Nat)) (k v : Nat) :
    repeatsGet (repeatsSet m k v) k = v := by
  simp [repeatsGet, repeatsSet, List.find?]

/-- C5: when the plan repeats on failure, the final score is below 0.45,
a next turn exists and the per-sentence counter is below the maximum, the
next queued turn is overwritten with the same sentence index (total turn
count unchanged) and the counter is incremented; once the counter has
reached the maximum the step changes nothing, so with
max_repeats_per_sentence = 1 a failing sentence reappears as the very next
turn exactly once — as the concrete four-turn run shows: sentence 1 fails
at turn 1, is replayed at turn 2, and is not queued again. -/
theorem C5_repeat_on_fail :
    (∀ (pl : Plan) (st : LoopState) (i sentIdx : Nat) (f : ℚ) (total : Nat),
      pl.repeat_on_fail = true → f < 9/20 → i + 1 < total →
      repeatsGet st.repeats sentIdx < pl.max_repeats_per_sentence →
      (repeatStep (some pl) st i sentIdx f total).seq =
        st.seq.set (i + 1) sentIdx ∧
      ((repeatStep (some pl) st i sentIdx f total).seq).length = st.seq.length ∧
      repeatsGet (repeatStep (some pl) st i sentIdx f total).repeats sentIdx =
        repeatsGet st.repeats sentIdx + 1) ∧
    (∀ (pl : Plan) (st : LoopState) (i sentIdx : Nat) (f : ℚ) (total : Nat),
      pl.max_repeats_per_sentence ≤ repeatsGet st.repeats sentIdx →
      repeatStep (some pl) st i sentIdx f total = st) ∧
    ((runWorker envC5 storyA 4 (some planC5)).processedTurns =
        [(0, 0), (1, 1), (2, 1), (3, 0)] ∧
      (runWorker envC5 storyA 4 (some planC5)).seq = [0, 1, 1, 0] ∧
      (runWorker envC5 storyA 4 (some planC5)).endedEarly = false) := by
  refine ⟨?_, ?_, ?_, ?_, ?_⟩
  · intro pl st i sentIdx f total h1 h2 h3 h4
    simp only [repeatStep]
    rw [if_pos ⟨h1, h2, h3⟩, if_pos h4]
    exact ⟨rfl, by simp, repeatsGet_set st.repeats sentIdx _⟩
  · intro pl st i sentIdx f total h
    simp only [repeatStep]
    by_cases hc : pl.repeat_on_fail = true ∧ f < 9/20 ∧ i + 1 < total
    · rw [if_pos hc, if_neg (not_lt.mpr h)]
    · rw [if_neg hc]
  · with_unfolding_all decide
  · with_unfolding_all decide
  · with_unfolding_all decide

theorem C5_witness :
    ((repeatStep (some planC5) stC5a 1 1 (3/10) 4).seq = stC5a.seq.set 2 1 ∧
     ((repeatStep (some planC5) stC5a 1 1 (3/10) 4).seq).length = stC5a.seq.length ∧
     repeatsGet (repeatStep (some planC5) stC5a 1 1 (3/10) 4).repeats 1 =
       repeatsGet stC5a.repeats 1 + 1) ∧
    repeatStep (some planC5) stC5b 2 1 (3/10) 4 = stC5b :=
  ⟨C5_repeat_on_fail.1 planC5 stC5a 1 1 (3/10) 4 rfl (by norm_num)
      (by omega) (by decide),
   C5_repeat_on_fail.2.1 planC5 stC5b 2 1 (3/10) 4 (by decide)⟩

/-! ### C6 -/

theorem C6_witness :
    ∃ st2, runTurn envC6 storyA none 1 stC6 0 = Except.ok (st2, false) ∧
      st2.recordedPaths = stC6.recordedPaths ++
        [wavPathFor envC6 storyA 0,
         pyReplace (wavPathFor envC6 storyA 0) ".wav" "_retry1.wav"] ∧
      pyReplace (wavPathFor envC6 storyA 0) ".wav" "_retry1.wav" ≠
        wavPathFor envC6 storyA 0 ∧
      "🎙️ Trop court, on recommence" ∈ st2.statuses ∧
      st2.savedRows = stC6.savedRows ∧
      st2.completedItems = stC6.completedItems ∧
      st2.recentScores = stC6.recentScores ∧
      st2.recentDurations = stC6.recentDurations ∧
      st2.lastFinalScore = stC6.lastFinalScore ∧
      st2.seq = stC6.seq ∧
      st2.repeats = stC6.repeats :=
  C6_retry_skip envC6 storyA none 1 stC6 0 (1/10) (2/10) rfl rfl rfl
    (by norm_num) rfl (by norm_num)

end SpeechCoach
